import Mathlib

/-!
Shallow embedding of `src/windows/win32_display.h`.

The session state (`Win32Display`), the event ring buffer
(`win32_push_event`, `win32_pop_event`, `win32_has_events`), the window
procedure (`win32_window_proc`), the message pump (`win32_process_events`)
and the presentation path (`win32_blit_pixels`) are translated directly
from the C source.  C `int` fields that only ever hold non-negative values
(indices, coordinates, key codes, flags, the button bitmask) are modelled
as `Nat`; the 32-bit complement in `mouseButtons &= ~mask` is written out
as the corresponding 32-bit literal.  Null pointers are modelled with
`Option`: a dereference of a null session is a `CallOutcome.crash`.
-/

/-- Event types, from the C enum `Win32EventType` (WIN32_EVENT_NONE = 0, ...). -/
inductive Win32EventType where
  | none
  | keyPress
  | keyRelease
  | mousePress
  | mouseRelease
  | mouseMove
  | close
  | resize
deriving DecidableEq

/-- The C struct `Win32Event`.  All fields are C `int`s carrying
non-negative values (key codes, button ids, coordinates, sizes). -/
structure Win32Event where
  type : Win32EventType
  key : Nat
  button : Nat
  mouseX : Nat
  mouseY : Nat
  width : Nat
  height : Nat
deriving DecidableEq

/-- A `Win32Event` after `memset(&event, 0, sizeof(Win32Event))`. -/
def zeroEvent : Win32Event :=
  { type := Win32EventType.none, key := 0, button := 0,
    mouseX := 0, mouseY := 0, width := 0, height := 0 }

/-- The C struct `Win32Display` (the display session).  The platform
handles (`hwnd`, `hdc`, `memDC`, `bitmap`, `bmi`) are opaque OS resources
with no bearing on the claims and are omitted; `pixels` is the DIB-section
byte buffer; `events[64]` is modelled as a total function from index to
event (reads outside 0..63 never occur in reachable states). -/
structure Win32Display where
  width : Nat
  height : Nat
  pixels : List Nat
  shouldClose : Nat
  events : Nat → Win32Event
  eventHead : Nat
  eventTail : Nat
  mouseX : Nat
  mouseY : Nat
  mouseButtons : Nat
  timerFreq : Nat
  timerStart : Nat

/-- The session state established by `win32_create_window` on success:
`calloc` zero-initializes every field, then `width`/`height` are set and
the timer fields are filled from `QueryPerformanceFrequency` /
`QueryPerformanceCounter` (taken as parameters here); the DIB section
provides a zero-initialized `width*height*4`-byte pixel buffer. -/
def initDisplay (width height timerFreq timerStart : Nat) : Win32Display :=
  { width := width, height := height,
    pixels := List.replicate (width * height * 4) 0,
    shouldClose := 0,
    events := fun _ => zeroEvent,
    eventHead := 0, eventTail := 0,
    mouseX := 0, mouseY := 0, mouseButtons := 0,
    timerFreq := timerFreq, timerStart := timerStart }

/-- `win32_push_event`: insert at the tail unless advancing the tail would
make it equal the head, in which case the event is silently dropped. -/
def win32_push_event (disp : Win32Display) (event : Win32Event) : Win32Display :=
  let next := (disp.eventTail + 1) % 64
  if next ≠ disp.eventHead then
    { disp with events := Function.update disp.events disp.eventTail event,
                eventTail := next }
  else
    disp

/-- `win32_has_events`: the C `int` result of `eventHead != eventTail`,
modelled as `Bool`. -/
def win32_has_events (disp : Win32Display) : Bool :=
  disp.eventHead != disp.eventTail

/-- `win32_pop_event (disp, event)`: returns the C return value (0 or 1),
the updated session and the caller's out-parameter `*event` after the
call (unchanged when the queue is empty). -/
def win32_pop_event (disp : Win32Display) (event : Win32Event) :
    Nat × Win32Display × Win32Event :=
  if disp.eventHead = disp.eventTail then (0, disp, event)
  else
    (1, { disp with eventHead := (disp.eventHead + 1) % 64 },
     disp.events disp.eventHead)

/-- `win32_blit_pixels` after its null checks have passed:
`memcpy(disp->pixels, pixels, disp->width * disp->height * 4)` copies
exactly `width*height*4` bytes of `pixels` over the front of the
DIB-section buffer (the subsequent `BitBlt` to the visible window is an
OS call that does not change session state). -/
def win32_blit_pixels_core (disp : Win32Display) (pixels : List Nat) : Win32Display :=
  { disp with pixels :=
      pixels.take (disp.width * disp.height * 4) ++
      disp.pixels.drop (disp.width * disp.height * 4) }

/-- `win32_get_time`: `(now - timerStart) / timerFreq` as an exact
rational (the C code computes this in `double`). -/
def win32_get_time (disp : Win32Display) (now : Nat) : ℚ :=
  ((now : ℚ) - (disp.timerStart : ℚ)) / (disp.timerFreq : ℚ)

/-- `win32_get_mouse` with non-null out-pointers: writes
`disp->mouseX`, `disp->mouseY`. -/
def win32_get_mouse (disp : Win32Display) : Nat × Nat :=
  (disp.mouseX, disp.mouseY)

/-- `win32_should_close`: returns the C `int` flag `disp->shouldClose`. -/
def win32_should_close (disp : Win32Display) : Nat :=
  disp.shouldClose

/-- The window messages the C `switch` in `win32_window_proc`
distinguishes.  For the mouse and size messages the two 16-bit halves of
`lParam` (`LOWORD`/`HIWORD`) are carried directly; `wParam` carries the
virtual-key code. -/
inductive Win32Msg where
  | wmClose
  | wmDestroy
  | wmKeyDown (wParam : Nat)
  | wmKeyUp (wParam : Nat)
  | wmLButtonDown (x y : Nat)
  | wmRButtonDown (x y : Nat)
  | wmMButtonDown (x y : Nat)
  | wmLButtonUp (x y : Nat)
  | wmRButtonUp (x y : Nat)
  | wmMButtonUp (x y : Nat)
  | wmMouseMove (x y : Nat)
  | wmSize (w h : Nat)
  | wmPaint
  | other
deriving DecidableEq

/-- Body of `win32_window_proc` for a non-null `g_display = disp`.
Each case builds its event from the zeroed `event` local, updates the
session state, and pushes via `win32_push_event` exactly as the C source
does.  `WM_DESTROY` (`PostQuitMessage`), `WM_PAINT` (`BitBlt`) and the
`DefWindowProc` fallthrough do not change session state.  The masks
4294967294, 4294967293, 4294967291 are the 32-bit values of `~1`, `~2`,
`~4` in `mouseButtons &= ~mask`. -/
def win32_window_proc_core (disp : Win32Display) (msg : Win32Msg) : Win32Display :=
  match msg with
  | Win32Msg.wmClose =>
      win32_push_event { disp with shouldClose := 1 }
        { zeroEvent with type := Win32EventType.close }
  | Win32Msg.wmDestroy => disp
  | Win32Msg.wmKeyDown wParam =>
      win32_push_event disp
        { zeroEvent with type := Win32EventType.keyPress, key := wParam }
  | Win32Msg.wmKeyUp wParam =>
      win32_push_event disp
        { zeroEvent with type := Win32EventType.keyRelease, key := wParam }
  | Win32Msg.wmLButtonDown x y =>
      win32_push_event { disp with mouseButtons := disp.mouseButtons ||| 1 }
        { zeroEvent with type := Win32EventType.mousePress, button := 1,
                         mouseX := x, mouseY := y }
  | Win32Msg.wmRButtonDown x y =>
      win32_push_event { disp with mouseButtons := disp.mouseButtons ||| 4 }
        { zeroEvent with type := Win32EventType.mousePress, button := 3,
                         mouseX := x, mouseY := y }
  | Win32Msg.wmMButtonDown x y =>
      win32_push_event { disp with mouseButtons := disp.mouseButtons ||| 2 }
        { zeroEvent with type := Win32EventType.mousePress, button := 2,
                         mouseX := x, mouseY := y }
  | Win32Msg.wmLButtonUp x y =>
      win32_push_event { disp with mouseButtons := disp.mouseButtons &&& 4294967294 }
        { zeroEvent with type := Win32EventType.mouseRelease, button := 1,
                         mouseX := x, mouseY := y }
  | Win32Msg.wmRButtonUp x y =>
      win32_push_event { disp with mouseButtons := disp.mouseButtons &&& 4294967291 }
        { zeroEvent with type := Win32EventType.mouseRelease, button := 3,
                         mouseX := x, mouseY := y }
  | Win32Msg.wmMButtonUp x y =>
      win32_push_event { disp with mouseButtons := disp.mouseButtons &&& 4294967293 }
        { zeroEvent with type := Win32EventType.mouseRelease, button := 2,
                         mouseX := x, mouseY := y }
  | Win32Msg.wmMouseMove x y =>
      win32_push_event { disp with mouseX := x, mouseY := y }
        { zeroEvent with type := Win32EventType.mouseMove,
                         mouseX := x, mouseY := y }
  | Win32Msg.wmSize w h =>
      win32_push_event disp
        { zeroEvent with type := Win32EventType.resize, width := w, height := h }
  | Win32Msg.wmPaint => disp
  | Win32Msg.other => disp

/-- `win32_window_proc` reads the global `g_display`, which may be null;
every state-touching case is guarded by `if (disp)`, so with a null
global the procedure changes nothing. -/
def win32_window_proc (gDisplay : Option Win32Display) (msg : Win32Msg) :
    Option Win32Display :=
  match gDisplay with
  | Option.none => Option.none
  | Option.some disp => Option.some (win32_window_proc_core disp msg)

/-- A message delivered by `PeekMessage` inside `win32_process_events`:
either `WM_QUIT` (posted by `PostQuitMessage`) or a window message
dispatched to `win32_window_proc`. -/
inductive PumpMsg where
  | quit
  | window (m : Win32Msg)
deriving DecidableEq

/-- `win32_process_events` on a non-null session: drains the pending
platform messages in order.  `WM_QUIT` sets `shouldClose = 1` and returns
1 immediately; every other message is dispatched to the window procedure
(with `g_display` the session itself); when no message remains the C
code returns `disp->shouldClose`. -/
def win32_process_events (disp : Win32Display) (msgs : List PumpMsg) :
    Nat × Win32Display :=
  match msgs with
  | [] => (disp.shouldClose, disp)
  | PumpMsg.quit :: _ => (1, { disp with shouldClose := 1 })
  | PumpMsg.window m :: rest =>
      win32_process_events (win32_window_proc_core disp m) rest

/-- Outcome of calling an operation through a possibly-null session
pointer: `crash` models an unguarded dereference of a null pointer,
`ok` a normal return. -/
inductive CallOutcome (α : Type) where
  | crash
  | ok (value : α)
deriving DecidableEq

/-- `win32_process_events` through its pointer: the body dereferences
`disp` unconditionally (`disp->shouldClose`), so a null session crashes. -/
def win32_process_events_checked (disp : Option Win32Display)
    (msgs : List PumpMsg) : CallOutcome (Nat × Win32Display) :=
  match disp with
  | Option.none => CallOutcome.crash
  | Option.some d => CallOutcome.ok (win32_process_events d msgs)

/-- `win32_has_events` through its pointer: reads `disp->eventHead`
without a null check. -/
def win32_has_events_checked (disp : Option Win32Display) : CallOutcome Bool :=
  match disp with
  | Option.none => CallOutcome.crash
  | Option.some d => CallOutcome.ok (win32_has_events d)

/-- `win32_pop_event` through its pointer: reads `disp->eventHead`
without a null check. -/
def win32_pop_event_checked (disp : Option Win32Display) (event : Win32Event) :
    CallOutcome (Nat × Win32Display × Win32Event) :=
  match disp with
  | Option.none => CallOutcome.crash
  | Option.some d => CallOutcome.ok (win32_pop_event d event)

/-- `win32_blit_pixels` through its pointers: the C body starts with
`if (!disp || !pixels) return;`, so a null session or a null buffer is a
silent no-op; otherwise it copies and blits. -/
def win32_blit_pixels_checked (disp : Option Win32Display)
    (pixels : Option (List Nat)) : CallOutcome (Option Win32Display) :=
  match disp, pixels with
  | Option.none, _ => CallOutcome.ok Option.none
  | Option.some d, Option.none => CallOutcome.ok (Option.some d)
  | Option.some d, Option.some px => CallOutcome.ok (Option.some (win32_blit_pixels_core d px))

/-- `win32_get_time` through its pointer: reads `disp->timerStart`
without a null check. -/
def win32_get_time_checked (disp : Option Win32Display) (now : Nat) :
    CallOutcome ℚ :=
  match disp with
  | Option.none => CallOutcome.crash
  | Option.some d => CallOutcome.ok (win32_get_time d now)

/-- `win32_get_mouse` through its session pointer (with the usual
non-null out-pointers): `*x = disp->mouseX` dereferences `disp` without a
null check. -/
def win32_get_mouse_checked (disp : Option Win32Display) :
    CallOutcome (Nat × Nat) :=
  match disp with
  | Option.none => CallOutcome.crash
  | Option.some d => CallOutcome.ok (win32_get_mouse d)

/-- `win32_should_close` through its pointer: reads `disp->shouldClose`
without a null check. -/
def win32_should_close_checked (disp : Option Win32Display) : CallOutcome Nat :=
  match disp with
  | Option.none => CallOutcome.crash
  | Option.some d => CallOutcome.ok (win32_should_close d)

/-- `win32_destroy_window` through its pointer: the body starts with
`if (!disp) return;`, so a null session is a silent no-op; the non-null
path releases OS resources and frees the session. -/
def win32_destroy_window_checked (disp : Option Win32Display) : CallOutcome Unit :=
  match disp with
  | Option.none => CallOutcome.ok ()
  | Option.some _ => CallOutcome.ok ()

/-- Push a whole list of events in order (repeated `win32_push_event`). -/
def pushList (disp : Win32Display) (evs : List Win32Event) : Win32Display :=
  evs.foldl win32_push_event disp

/-- Call `win32_pop_event` `n` times (each with a zeroed out-parameter),
recording each call's result as `some` popped event when it returned 1
and `none` when it returned 0. -/
def popN : Nat → Win32Display → List (Option Win32Event) × Win32Display
  | 0, disp => ([], disp)
  | n + 1, disp =>
      let r := win32_pop_event disp zeroEvent
      let rest := popN n r.2.1
      ((if r.1 = 1 then Option.some r.2.2 else Option.none) :: rest.1, rest.2)

/-- The ring buffer of `disp` represents the pending event list
`pending`: indices are in range, the pending count matches the
head/tail distance mod 64, and the i-th pending event sits at slot
`(head + i) % 64`. -/
def queueRepr (disp : Win32Display) (pending : List Win32Event) : Prop :=
  disp.eventHead < 64 ∧ disp.eventTail < 64 ∧
  pending.length = (disp.eventTail + 64 - disp.eventHead) % 64 ∧
  ∀ i, i < pending.length →
    disp.events ((disp.eventHead + i) % 64) = pending.getD i zeroEvent

/-- States reachable from a freshly created session by pushes and pops. -/
inductive QueueReachable : Win32Display → Prop where
  | init (w h f s : Nat) : QueueReachable (initDisplay w h f s)
  | push (d : Win32Display) (e : Win32Event) :
      QueueReachable d → QueueReachable (win32_push_event d e)
  | pop (d : Win32Display) (buf : Win32Event) :
      QueueReachable d → QueueReachable (win32_pop_event d buf).2.1

/-- The pointer messages of the window procedure (button presses,
releases and moves). -/
def isPointerMsg : Win32Msg → Bool
  | Win32Msg.wmLButtonDown _ _ => true
  | Win32Msg.wmRButtonDown _ _ => true
  | Win32Msg.wmMButtonDown _ _ => true
  | Win32Msg.wmLButtonUp _ _ => true
  | Win32Msg.wmRButtonUp _ _ => true
  | Win32Msg.wmMButtonUp _ _ => true
  | Win32Msg.wmMouseMove _ _ => true
  | _ => false

/-- The position carried by the last move notification of a message
sequence, starting from position `p` (the spec-side description of how
the stored cursor position evolves). -/
def lastMovePos (msgs : List Win32Msg) (p : Nat × Nat) : Nat × Nat :=
  msgs.foldl
    (fun q m =>
      match m with
      | Win32Msg.wmMouseMove x y => (x, y)
      | _ => q) p

/-- The button-down message for button id `b` (1 = left, 2 = middle,
3 = right). -/
def buttonDownMsg (b x y : Nat) : Win32Msg :=
  match b with
  | 1 => Win32Msg.wmLButtonDown x y
  | 2 => Win32Msg.wmMButtonDown x y
  | _ => Win32Msg.wmRButtonDown x y

/-- The button-up message for button id `b` (1 = left, 2 = middle,
3 = right). -/
def buttonUpMsg (b x y : Nat) : Win32Msg :=
  match b with
  | 1 => Win32Msg.wmLButtonUp x y
  | 2 => Win32Msg.wmMButtonUp x y
  | _ => Win32Msg.wmRButtonUp x y

/-- `n` key-press events with distinct key codes `0, 1, ..., n-1`, used to
exercise the queue on concrete inputs. -/
def keyEvents (n : Nat) : List Win32Event :=
  (List.range n).map
    (fun i => { zeroEvent with type := Win32EventType.keyPress, key := i })

/-! Ring-buffer representation lemmas. -/

lemma win32_push_event_shouldClose (d : Win32Display) (e : Win32Event) :
    (win32_push_event d e).shouldClose = d.shouldClose := by
  simp only [win32_push_event]
  split <;> rfl

lemma win32_push_event_mouseX (d : Win32Display) (e : Win32Event) :
    (win32_push_event d e).mouseX = d.mouseX := by
  simp only [win32_push_event]
  split <;> rfl

lemma win32_push_event_mouseY (d : Win32Display) (e : Win32Event) :
    (win32_push_event d e).mouseY = d.mouseY := by
  simp only [win32_push_event]
  split <;> rfl

lemma win32_push_event_mouseButtons (d : Win32Display) (e : Win32Event) :
    (win32_push_event d e).mouseButtons = d.mouseButtons := by
  simp only [win32_push_event]
  split <;> rfl

lemma win32_pop_event_empty (d : Win32Display) (buf : Win32Event)
    (h : d.eventHead = d.eventTail) : win32_pop_event d buf = (0, d, buf) := by
  simp [win32_pop_event, h]

lemma queueRepr_init (w h f s : Nat) : queueRepr (initDisplay w h f s) [] := by
  simp [queueRepr, initDisplay]

lemma queueRepr_push (d : Win32Display) (l : List Win32Event) (e : Win32Event)
    (h : queueRepr d l) (hlen : l.length < 63) :
    queueRepr (win32_push_event d e) (l ++ [e]) := by
  obtain ⟨hh, ht, hlval, hidx⟩ := h
  have hne : (d.eventTail + 1) % 64 ≠ d.eventHead := by omega
  have hpush : win32_push_event d e =
      { d with events := Function.update d.events d.eventTail e,
               eventTail := (d.eventTail + 1) % 64 } := by
    simp [win32_push_event, hne]
  rw [hpush]
  unfold queueRepr
  dsimp only
  refine ⟨hh, by omega, ?_, ?_⟩
  · simp only [List.length_append, List.length_cons, List.length_nil]
    omega
  · intro i hi
    simp only [List.length_append, List.length_cons, List.length_nil] at hi
    rcases Nat.lt_or_ge i l.length with hcase | hcase
    · have hne2 : (d.eventHead + i) % 64 ≠ d.eventTail := by omega
      rw [Function.update_noteq hne2, hidx i hcase,
        List.getD_append _ _ _ _ hcase]
    · have hieq : i = l.length := by omega
      subst hieq
      have heq : (d.eventHead + l.length) % 64 = d.eventTail := by omega
      rw [heq, Function.update_same,
        List.getD_append_right _ _ _ _ (Nat.le_refl _)]
      simp

lemma queueRepr_push_full (d : Win32Display) (l : List Win32Event) (e : Win32Event)
    (h : queueRepr d l) (hlen : l.length = 63) :
    win32_push_event d e = d := by
  obtain ⟨hh, ht, hlval, -⟩ := h
  have heq : (d.eventTail + 1) % 64 = d.eventHead := by omega
  simp [win32_push_event, heq]

lemma queueRepr_pop (d : Win32Display) (e : Win32Event) (l : List Win32Event)
    (buf : Win32Event) (h : queueRepr d (e :: l)) :
    win32_pop_event d buf =
      (1, { d with eventHead := (d.eventHead + 1) % 64 }, e) ∧
    queueRepr { d with eventHead := (d.eventHead + 1) % 64 } l := by
  obtain ⟨hh, ht, hlval, hidx⟩ := h
  have hlen : l.length + 1 = (d.eventTail + 64 - d.eventHead) % 64 := by
    simpa using hlval
  have hne : d.eventHead ≠ d.eventTail := by omega
  have he : d.events d.eventHead = e := by
    have h0 := hidx 0 (by simp)
    simpa [Nat.mod_eq_of_lt hh] using h0
  refine ⟨by simp [win32_pop_event, hne, he], ?_⟩
  unfold queueRepr
  dsimp only
  refine ⟨by omega, ht, by omega, ?_⟩
  intro i hi
  have h2 := hidx (i + 1) (by simp only [List.length_cons]; omega)
  have harith : ((d.eventHead + 1) % 64 + i) % 64 = (d.eventHead + (i + 1)) % 64 := by
    rw [Nat.mod_add_mod]
    congr 1
    omega
  rw [harith, h2]
  simp

lemma queueRepr_hasEvents (d : Win32Display) (l : List Win32Event)
    (h : queueRepr d l) : win32_has_events d = !l.isEmpty := by
  obtain ⟨hh, ht, hlval, -⟩ := h
  cases l with
  | nil =>
    have hht : d.eventHead = d.eventTail := by
      simp only [List.length_nil] at hlval
      omega
    simp [win32_has_events, hht]
  | cons a l' =>
    have hht : d.eventHead ≠ d.eventTail := by
      simp only [List.length_cons] at hlval
      omega
    simp [win32_has_events, hht]

lemma pushList_repr (evs : List Win32Event) :
    ∀ (d : Win32Display) (l : List Win32Event), queueRepr d l →
      l.length + evs.length ≤ 63 →
      queueRepr (pushList d evs) (l ++ evs) := by
  induction evs with
  | nil =>
    intro d l h _
    simpa [pushList] using h
  | cons e evs ih =>
    intro d l h hlen
    simp only [List.length_cons] at hlen
    have h1 : queueRepr (win32_push_event d e) (l ++ [e]) :=
      queueRepr_push d l e h (by omega)
    have h2 := ih (win32_push_event d e) (l ++ [e]) h1
      (by simp only [List.length_append, List.length_cons, List.length_nil]; omega)
    simpa [pushList, List.append_assoc] using h2

lemma popN_repr (l1 : List Win32Event) :
    ∀ (d : Win32Display) (l2 : List Win32Event), queueRepr d (l1 ++ l2) →
      (popN l1.length d).1 = l1.map Option.some ∧
      queueRepr (popN l1.length d).2 l2 := by
  induction l1 with
  | nil =>
    intro d l2 h
    simpa [popN] using h
  | cons e l1 ih =>
    intro d l2 h
    obtain ⟨heq, hrep⟩ := queueRepr_pop d e (l1 ++ l2) zeroEvent (by simpa using h)
    have hrec := ih _ l2 hrep
    simp only [List.length_cons, popN, heq, List.map_cons]
    simp [hrec.1, hrec.2]

lemma queueReachable_repr (d : Win32Display) (h : QueueReachable d) :
    ∃ l, queueRepr d l := by
  induction h with
  | init w h f s => exact ⟨[], queueRepr_init w h f s⟩
  | push d e _ ih =>
    obtain ⟨l, hl⟩ := ih
    by_cases hfull : l.length = 63
    · rw [queueRepr_push_full d l e hl hfull]
      exact ⟨l, hl⟩
    · have hlt : l.length < 63 := by
        obtain ⟨hh, ht, hlen, -⟩ := hl
        omega
      exact ⟨l ++ [e], queueRepr_push d l e hl hlt⟩
  | pop d buf _ ih =>
    obtain ⟨l, hl⟩ := ih
    cases l with
    | nil =>
      have hht : d.eventHead = d.eventTail := by
        obtain ⟨hh, ht, hlen, -⟩ := hl
        simp only [List.length_nil] at hlen
        omega
      rw [win32_pop_event_empty d buf hht]
      exact ⟨[], hl⟩
    | cons e l' =>
      rw [(queueRepr_pop d e l' buf hl).1]
      exact ⟨l', (queueRepr_pop d e l' buf hl).2⟩

lemma win32_window_proc_core_shouldClose (d : Win32Display) (m : Win32Msg)
    (h : d.shouldClose = 1) : (win32_window_proc_core d m).shouldClose = 1 := by
  cases m <;> simp [win32_window_proc_core, win32_push_event_shouldClose, h]

lemma win32_process_events_closed (msgs : List PumpMsg) :
    ∀ d : Win32Display, d.shouldClose = 1 →
      (win32_process_events d msgs).1 = 1 ∧
      (win32_process_events d msgs).2.shouldClose = 1 := by
  induction msgs with
  | nil =>
    intro d h
    simp [win32_process_events, h]
  | cons m rest ih =>
    intro d h
    cases m with
    | quit => simp [win32_process_events]
    | window wm =>
      simpa [win32_process_events] using
        ih (win32_window_proc_core d wm) (win32_window_proc_core_shouldClose d wm h)

lemma win32_window_proc_core_mouse (d : Win32Display) (m : Win32Msg) :
    win32_get_mouse (win32_window_proc_core d m) =
      match m with
      | Win32Msg.wmMouseMove x y => (x, y)
      | _ => win32_get_mouse d := by
  cases m <;> simp [win32_window_proc_core, win32_get_mouse,
    win32_push_event_mouseX, win32_push_event_mouseY]

lemma win32_window_proc_core_mouseButtons (d : Win32Display) (m : Win32Msg) :
    (win32_window_proc_core d m).mouseButtons =
      match m with
      | Win32Msg.wmLButtonDown _ _ => d.mouseButtons ||| 1
      | Win32Msg.wmMButtonDown _ _ => d.mouseButtons ||| 2
      | Win32Msg.wmRButtonDown _ _ => d.mouseButtons ||| 4
      | Win32Msg.wmLButtonUp _ _ => d.mouseButtons &&& 4294967294
      | Win32Msg.wmMButtonUp _ _ => d.mouseButtons &&& 4294967293
      | Win32Msg.wmRButtonUp _ _ => d.mouseButtons &&& 4294967291
      | _ => d.mouseButtons := by
  cases m <;> simp [win32_window_proc_core, win32_push_event_mouseButtons]

/-! Claim theorems. -/

/-- C7: in every state reachable from the initial empty queue by pushes
and pops, the pending-event count `(eventTail - eventHead) mod 64` is
zero iff `eventHead = eventTail`, `win32_has_events` returns true iff
`eventHead ≠ eventTail`, and a push whose advanced tail would equal the
head leaves the state unchanged (the new event is silently dropped). -/
theorem c7_queue_emptiness_invariant (d : Win32Display) (h : QueueReachable d) :
    ((((d.eventTail : ℤ) - (d.eventHead : ℤ)) % 64 = 0) ↔
      d.eventHead = d.eventTail) ∧
    (win32_has_events d = true ↔ d.eventHead ≠ d.eventTail) ∧
    (∀ e, (d.eventTail + 1) % 64 = d.eventHead → win32_push_event d e = d) := by
  obtain ⟨l, hl⟩ := queueReachable_repr d h
  obtain ⟨hh, ht, hlen, -⟩ := hl
  refine ⟨by omega, by simp [win32_has_events], ?_⟩
  intro e hfull
  simp [win32_push_event, hfull]

/-- Witness for C7: the invariant holds at the freshly created session. -/
theorem c7_queue_emptiness_invariant_witness :
    (((((initDisplay 320 240 1 0).eventTail : ℤ) -
        ((initDisplay 320 240 1 0).eventHead : ℤ)) % 64 = 0) ↔
      (initDisplay 320 240 1 0).eventHead = (initDisplay 320 240 1 0).eventTail) ∧
    (win32_has_events (initDisplay 320 240 1 0) = true ↔
      (initDisplay 320 240 1 0).eventHead ≠ (initDisplay 320 240 1 0).eventTail) ∧
    (∀ e, ((initDisplay 320 240 1 0).eventTail + 1) % 64 =
        (initDisplay 320 240 1 0).eventHead →
      win32_push_event (initDisplay 320 240 1 0) e = initDisplay 320 240 1 0) :=
  c7_queue_emptiness_invariant (initDisplay 320 240 1 0)
    (QueueReachable.init 320 240 1 0)

/-- C9: although the event array has 64 slots, in every reachable queue
state the pending count `(eventTail - eventHead) mod 64` is at most 63,
and a push performed while 63 events are pending leaves the state
unchanged (the event is dropped). -/
theorem c9_effective_capacity (d : Win32Display) (h : QueueReachable d) :
    ((d.eventTail : ℤ) - (d.eventHead : ℤ)) % 64 ≤ 63 ∧
    ((((d.eventTail : ℤ) - (d.eventHead : ℤ)) % 64 = 63) →
      ∀ e, win32_push_event d e = d) := by
  obtain ⟨l, hl⟩ := queueReachable_repr d h
  obtain ⟨hh, ht, hlen, -⟩ := hl
  refine ⟨by omega, ?_⟩
  intro h63 e
  have hfull : (d.eventTail + 1) % 64 = d.eventHead := by omega
  simp [win32_push_event, hfull]

/-- Witness for C9 at the freshly created session. -/
theorem c9_effective_capacity_witness :
    (((initDisplay 320 240 1 0).eventTail : ℤ) -
      ((initDisplay 320 240 1 0).eventHead : ℤ)) % 64 ≤ 63 ∧
    (((((initDisplay 320 240 1 0).eventTail : ℤ) -
        ((initDisplay 320 240 1 0).eventHead : ℤ)) % 64 = 63) →
      ∀ e, win32_push_event (initDisplay 320 240 1 0) e = initDisplay 320 240 1 0) :=
  c9_effective_capacity (initDisplay 320 240 1 0) (QueueReachable.init 320 240 1 0)

/-- C10: when the queue is empty, `win32_pop_event` returns the sentinel
0 and changes neither the session nor the caller's out-parameter, and
whenever the return value is not 1 the call was exactly that no-op. -/
theorem c10_pop_empty_inert (disp : Win32Display) (event : Win32Event) :
    (disp.eventHead = disp.eventTail →
      win32_pop_event disp event = (0, disp, event)) ∧
    ((win32_pop_event disp event).1 ≠ 1 →
      win32_pop_event disp event = (0, disp, event)) := by
  constructor
  · intro h
    exact win32_pop_event_empty disp event h
  · intro h
    by_cases hht : disp.eventHead = disp.eventTail
    · exact win32_pop_event_empty disp event hht
    · exact absurd (by simp [win32_pop_event, hht]) h

/-- Witness for C10: pop on the freshly created (empty) session. -/
theorem c10_pop_empty_inert_witness :
    (initDisplay 320 240 1 0).eventHead = (initDisplay 320 240 1 0).eventTail ∧
    win32_pop_event (initDisplay 320 240 1 0) zeroEvent =
      (0, initDisplay 320 240 1 0, zeroEvent) :=
  ⟨rfl, (c10_pop_empty_inert (initDisplay 320 240 1 0) zeroEvent).1 rfl⟩

/-- C6: when the session's surface has its creation size `width*height*4`
and the input buffer has that same length, `win32_blit_pixels` copies the
buffer verbatim: immediately afterward the off-screen surface equals the
input buffer byte for byte. -/
theorem c6_blit_roundtrip (disp : Win32Display) (pixels : List Nat)
    (hsurf : disp.pixels.length = disp.width * disp.height * 4)
    (hbuf : pixels.length = disp.width * disp.height * 4) :
    (win32_blit_pixels_core disp pixels).pixels = pixels := by
  unfold win32_blit_pixels_core
  dsimp only
  rw [List.take_of_length_le (by omega), List.drop_eq_nil_of_le (by omega),
    List.append_nil]

/-- Witness for C6: blitting the bytes 1,2,3,4 onto a fresh 1-by-1
session leaves exactly those bytes in the surface. -/
theorem c6_blit_roundtrip_witness :
    (initDisplay 1 1 1 0).pixels.length =
      (initDisplay 1 1 1 0).width * (initDisplay 1 1 1 0).height * 4 ∧
    (win32_blit_pixels_core (initDisplay 1 1 1 0) [1, 2, 3, 4]).pixels =
      [1, 2, 3, 4] :=
  ⟨by decide, c6_blit_roundtrip (initDisplay 1 1 1 0) [1, 2, 3, 4]
    (by decide) (by decide)⟩

/-- C5: once the session's `shouldClose` flag is set, every
`win32_process_events` call returns 1 and leaves the flag set, and no
state-changing operation of the layer (window procedure on any message,
push, pop, blit) ever resets it. -/
theorem c5_close_idempotent (disp : Win32Display) (h : disp.shouldClose = 1) :
    (∀ msgs, (win32_process_events disp msgs).1 = 1 ∧
      (win32_process_events disp msgs).2.shouldClose = 1) ∧
    (∀ m, (win32_window_proc_core disp m).shouldClose = 1) ∧
    (∀ e, (win32_push_event disp e).shouldClose = 1) ∧
    (∀ buf, (win32_pop_event disp buf).2.1.shouldClose = 1) ∧
    (∀ px, (win32_blit_pixels_core disp px).shouldClose = 1) := by
  refine ⟨fun msgs => win32_process_events_closed msgs disp h,
    fun m => win32_window_proc_core_shouldClose disp m h,
    fun e => by rw [win32_push_event_shouldClose]; exact h,
    fun buf => ?_,
    fun px => h⟩
  unfold win32_pop_event
  split <;> simpa using h

/-- Witness for C5: the session right after a close request (the window
procedure on WM_CLOSE) has the flag set and keeps it set. -/
theorem c5_close_idempotent_witness :
    (win32_window_proc_core (initDisplay 320 240 1 0) Win32Msg.wmClose).shouldClose
      = 1 ∧
    ((∀ msgs, (win32_process_events
        (win32_window_proc_core (initDisplay 320 240 1 0) Win32Msg.wmClose) msgs).1 = 1 ∧
      (win32_process_events
        (win32_window_proc_core (initDisplay 320 240 1 0) Win32Msg.wmClose) msgs).2.shouldClose = 1) ∧
    (∀ m, (win32_window_proc_core
        (win32_window_proc_core (initDisplay 320 240 1 0) Win32Msg.wmClose) m).shouldClose = 1) ∧
    (∀ e, (win32_push_event
        (win32_window_proc_core (initDisplay 320 240 1 0) Win32Msg.wmClose) e).shouldClose = 1) ∧
    (∀ buf, (win32_pop_event
        (win32_window_proc_core (initDisplay 320 240 1 0) Win32Msg.wmClose) buf).2.1.shouldClose = 1) ∧
    (∀ px, (win32_blit_pixels_core
        (win32_window_proc_core (initDisplay 320 240 1 0) Win32Msg.wmClose) px).shouldClose = 1)) :=
  ⟨by decide, c5_close_idempotent
    (win32_window_proc_core (initDisplay 320 240 1 0) Win32Msg.wmClose) (by decide)⟩

/-- C4 counterexample: with a null session, `win32_has_events` (and
likewise processEvents, popEvent, getTime, getMouse, shouldClose)
dereferences the null pointer — a crash, not a silent no-op. -/
theorem c4_null_noop_counterexample :
    win32_has_events_checked Option.none = CallOutcome.crash ∧
    win32_process_events_checked Option.none [] = CallOutcome.crash ∧
    win32_pop_event_checked Option.none zeroEvent = CallOutcome.crash ∧
    win32_get_time_checked Option.none 0 = CallOutcome.crash ∧
    win32_get_mouse_checked Option.none = CallOutcome.crash ∧
    win32_should_close_checked Option.none = CallOutcome.crash :=
  ⟨rfl, rfl, rfl, rfl, rfl, rfl⟩

/-- C4 amended: only `win32_blit_pixels` (null session or null buffer)
and `win32_destroy_window` (null session) are guarded silent no-ops;
`win32_process_events`, `win32_has_events`, `win32_pop_event`,
`win32_get_time`, `win32_get_mouse` and `win32_should_close` dereference
a null session without a check. -/
theorem c4_null_noop_amended :
    (∀ px, win32_blit_pixels_checked Option.none px =
      CallOutcome.ok Option.none) ∧
    (∀ d, win32_blit_pixels_checked (Option.some d) Option.none =
      CallOutcome.ok (Option.some d)) ∧
    win32_destroy_window_checked Option.none = CallOutcome.ok () ∧
    (∀ msgs, win32_process_events_checked Option.none msgs = CallOutcome.crash) ∧
    win32_has_events_checked Option.none = CallOutcome.crash ∧
    (∀ buf, win32_pop_event_checked Option.none buf = CallOutcome.crash) ∧
    (∀ now, win32_get_time_checked Option.none now = CallOutcome.crash) ∧
    win32_get_mouse_checked Option.none = CallOutcome.crash ∧
    win32_should_close_checked Option.none = CallOutcome.crash :=
  ⟨fun px => by cases px <;> rfl, fun d => rfl, rfl, fun msgs => rfl, rfl,
   fun buf => rfl, fun now => rfl, rfl, rfl⟩

/-- C8: for each button id b in {1 = left, 2 = middle, 3 = right}, the
button-down notification ORs bit b-1 into the bitmask and pushes a
MousePress event carrying button id b and the notification position; the
button-up notification ANDs with the 32-bit complement of bit b-1,
clearing exactly that bit, and pushes the matching MouseRelease event;
the bits of the other two buttons are unchanged by both. -/
theorem c8_button_translation (d : Win32Display) (b x y : Nat)
    (hb : b = 1 ∨ b = 2 ∨ b = 3) :
    win32_window_proc_core d (buttonDownMsg b x y) =
      win32_push_event { d with mouseButtons := d.mouseButtons ||| 2 ^ (b - 1) }
        { zeroEvent with type := Win32EventType.mousePress, button := b,
                         mouseX := x, mouseY := y } ∧
    win32_window_proc_core d (buttonUpMsg b x y) =
      win32_push_event
        { d with mouseButtons := d.mouseButtons &&& (4294967295 ^^^ 2 ^ (b - 1)) }
        { zeroEvent with type := Win32EventType.mouseRelease, button := b,
                         mouseX := x, mouseY := y } ∧
    (win32_window_proc_core d (buttonDownMsg b x y)).mouseButtons.testBit (b - 1)
      = true ∧
    (win32_window_proc_core d (buttonUpMsg b x y)).mouseButtons.testBit (b - 1)
      = false ∧
    (∀ c, (c = 1 ∨ c = 2 ∨ c = 3) → c ≠ b →
      (win32_window_proc_core d (buttonDownMsg b x y)).mouseButtons.testBit (c - 1)
        = d.mouseButtons.testBit (c - 1) ∧
      (win32_window_proc_core d (buttonUpMsg b x y)).mouseButtons.testBit (c - 1)
        = d.mouseButtons.testBit (c - 1)) := by
  rcases hb with rfl | rfl | rfl
  · have hpow : (2 : Nat) ^ (1 - 1) = 1 := by norm_num
    have hmask : (4294967295 ^^^ 2 ^ (1 - 1) : Nat) = 4294967294 := by decide
    have hmd : (win32_window_proc_core d (buttonDownMsg 1 x y)).mouseButtons =
        d.mouseButtons ||| 1 := by
      simp [buttonDownMsg, win32_window_proc_core, win32_push_event_mouseButtons]
    have hmu : (win32_window_proc_core d (buttonUpMsg 1 x y)).mouseButtons =
        d.mouseButtons &&& 4294967294 := by
      simp [buttonUpMsg, win32_window_proc_core, win32_push_event_mouseButtons]
    refine ⟨?_, ?_, ?_, ?_, ?_⟩
    · conv_rhs => rw [hpow]
      rfl
    · conv_rhs => rw [hmask]
      rfl
    · rw [hmd]
      simp [Nat.testBit_or, show Nat.testBit 1 0 = true from by decide]
    · rw [hmu]
      simp [Nat.testBit_and, show Nat.testBit 4294967294 0 = false from by decide]
    · intro c hc hcb
      rcases hc with rfl | rfl | rfl
      · exact absurd rfl hcb
      · refine ⟨?_, ?_⟩
        · rw [hmd]
          simp [Nat.testBit_or, show Nat.testBit 1 1 = false from by decide]
        · rw [hmu]
          simp [Nat.testBit_and, show Nat.testBit 4294967294 1 = true from by decide]
      · refine ⟨?_, ?_⟩
        · rw [hmd]
          simp [Nat.testBit_or, show Nat.testBit 1 2 = false from by decide]
        · rw [hmu]
          simp [Nat.testBit_and, show Nat.testBit 4294967294 2 = true from by decide]
  · have hpow : (2 : Nat) ^ (2 - 1) = 2 := by norm_num
    have hmask : (4294967295 ^^^ 2 ^ (2 - 1) : Nat) = 4294967293 := by decide
    have hmd : (win32_window_proc_core d (buttonDownMsg 2 x y)).mouseButtons =
        d.mouseButtons ||| 2 := by
      simp [buttonDownMsg, win32_window_proc_core, win32_push_event_mouseButtons]
    have hmu : (win32_window_proc_core d (buttonUpMsg 2 x y)).mouseButtons =
        d.mouseButtons &&& 4294967293 := by
      simp [buttonUpMsg, win32_window_proc_core, win32_push_event_mouseButtons]
    refine ⟨?_, ?_, ?_, ?_, ?_⟩
    · conv_rhs => rw [hpow]
      rfl
    · conv_rhs => rw [hmask]
      rfl
    · rw [hmd]
      simp [Nat.testBit_or, show Nat.testBit 2 1 = true from by decide]
    · rw [hmu]
      simp [Nat.testBit_and, show Nat.testBit 4294967293 1 = false from by decide]
    · intro c hc hcb
      rcases hc with rfl | rfl | rfl
      · refine ⟨?_, ?_⟩
        · rw [hmd]
          simp [Nat.testBit_or, show Nat.testBit 2 0 = false from by decide]
        · rw [hmu]
          simp [Nat.testBit_and, show Nat.testBit 4294967293 0 = true from by decide]
      · exact absurd rfl hcb
      · refine ⟨?_, ?_⟩
        · rw [hmd]
          simp [Nat.testBit_or, show Nat.testBit 2 2 = false from by decide]
        · rw [hmu]
          simp [Nat.testBit_and, show Nat.testBit 4294967293 2 = true from by decide]
  · have hpow : (2 : Nat) ^ (3 - 1) = 4 := by norm_num
    have hmask : (4294967295 ^^^ 2 ^ (3 - 1) : Nat) = 4294967291 := by decide
    have hmd : (win32_window_proc_core d (buttonDownMsg 3 x y)).mouseButtons =
        d.mouseButtons ||| 4 := by
      simp [buttonDownMsg, win32_window_proc_core, win32_push_event_mouseButtons]
    have hmu : (win32_window_proc_core d (buttonUpMsg 3 x y)).mouseButtons =
        d.mouseButtons &&& 4294967291 := by
      simp [buttonUpMsg, win32_window_proc_core, win32_push_event_mouseButtons]
    refine ⟨?_, ?_, ?_, ?_, ?_⟩
    · conv_rhs => rw [hpow]
      rfl
    · conv_rhs => rw [hmask]
      rfl
    · rw [hmd]
      simp [Nat.testBit_or, show Nat.testBit 4 2 = true from by decide]
    · rw [hmu]
      simp [Nat.testBit_and, show Nat.testBit 4294967291 2 = false from by decide]
    · intro c hc hcb
      rcases hc with rfl | rfl | rfl
      · refine ⟨?_, ?_⟩
        · rw [hmd]
          simp [Nat.testBit_or, show Nat.testBit 4 0 = false from by decide]
        · rw [hmu]
          simp [Nat.testBit_and, show Nat.testBit 4294967291 0 = true from by decide]
      · refine ⟨?_, ?_⟩
        · rw [hmd]
          simp [Nat.testBit_or, show Nat.testBit 4 1 = false from by decide]
        · rw [hmu]
          simp [Nat.testBit_and, show Nat.testBit 4294967291 1 = true from by decide]
      · exact absurd rfl hcb

/-- Witness for C8: left button (b = 1) pressed and released at (10, 20)
on a fresh session. -/
theorem c8_button_translation_witness :
    win32_window_proc_core (initDisplay 320 240 1 0) (buttonDownMsg 1 10 20) =
      win32_push_event
        { initDisplay 320 240 1 0 with
            mouseButtons := (initDisplay 320 240 1 0).mouseButtons ||| 2 ^ (1 - 1) }
        { zeroEvent with type := Win32EventType.mousePress, button := 1,
                         mouseX := 10, mouseY := 20 } ∧
    win32_window_proc_core (initDisplay 320 240 1 0) (buttonUpMsg 1 10 20) =
      win32_push_event
        { initDisplay 320 240 1 0 with
            mouseButtons := (initDisplay 320 240 1 0).mouseButtons &&&
              (4294967295 ^^^ 2 ^ (1 - 1)) }
        { zeroEvent with type := Win32EventType.mouseRelease, button := 1,
                         mouseX := 10, mouseY := 20 } ∧
    (win32_window_proc_core (initDisplay 320 240 1 0)
      (buttonDownMsg 1 10 20)).mouseButtons.testBit (1 - 1) = true ∧
    (win32_window_proc_core (initDisplay 320 240 1 0)
      (buttonUpMsg 1 10 20)).mouseButtons.testBit (1 - 1) = false ∧
    (∀ c, (c = 1 ∨ c = 2 ∨ c = 3) → c ≠ 1 →
      (win32_window_proc_core (initDisplay 320 240 1 0)
        (buttonDownMsg 1 10 20)).mouseButtons.testBit (c - 1) =
        (initDisplay 320 240 1 0).mouseButtons.testBit (c - 1) ∧
      (win32_window_proc_core (initDisplay 320 240 1 0)
        (buttonUpMsg 1 10 20)).mouseButtons.testBit (c - 1) =
        (initDisplay 320 240 1 0).mouseButtons.testBit (c - 1)) :=
  c8_button_translation (initDisplay 320 240 1 0) 1 10 20 (Or.inl rfl)

/-- C3 counterexample: after a move to (1,2) followed by a left-button
press at (5,6) — the press being the most recent position-carrying
notification — `win32_get_mouse` returns (1,2), not the claimed (5,6):
press/release notifications do not update the stored cursor position. -/
theorem c3_mouse_state_counterexample :
    win32_get_mouse
      (win32_window_proc_core
        (win32_window_proc_core (initDisplay 320 240 1 0) (Win32Msg.wmMouseMove 1 2))
        (Win32Msg.wmLButtonDown 5 6)) = (1, 2) ∧
    ((1 : Nat), (2 : Nat)) ≠ ((5 : Nat), (6 : Nat)) := by
  decide

/-- C3 amended: after any sequence of pointer press/release/move
notifications, `win32_get_mouse` returns the position carried by the
most recent MOVE notification of the sequence (the prior stored position
if there is none); press and release notifications update only the
button bitmask, and the position update happens whether or not the
corresponding queued event was dropped. -/
theorem c3_mouse_state_amended (msgs : List Win32Msg) (d : Win32Display)
    (hptr : ∀ m ∈ msgs, isPointerMsg m = true) :
    win32_get_mouse (msgs.foldl win32_window_proc_core d) =
      lastMovePos msgs (win32_get_mouse d) := by
  induction msgs generalizing d with
  | nil => simp [lastMovePos]
  | cons m rest ih =>
    have hrest : ∀ m' ∈ rest, isPointerMsg m' = true := fun m' hm' =>
      hptr m' (List.mem_cons_of_mem m hm')
    rw [List.foldl_cons, ih (win32_window_proc_core d m) hrest,
      win32_window_proc_core_mouse]
    cases m <;> rfl

/-- Witness for C3 amended: a move to (1,2) then a left press at (5,6)
gives getMouse = (1,2), the last move position. -/
theorem c3_mouse_state_amended_witness :
    (∀ m ∈ [Win32Msg.wmMouseMove 1 2, Win32Msg.wmLButtonDown 5 6],
      isPointerMsg m = true) ∧
    win32_get_mouse
      ([Win32Msg.wmMouseMove 1 2, Win32Msg.wmLButtonDown 5 6].foldl
        win32_window_proc_core (initDisplay 320 240 1 0)) =
      lastMovePos [Win32Msg.wmMouseMove 1 2, Win32Msg.wmLButtonDown 5 6]
        (win32_get_mouse (initDisplay 320 240 1 0)) :=
  ⟨by decide,
   c3_mouse_state_amended [Win32Msg.wmMouseMove 1 2, Win32Msg.wmLButtonDown 5 6]
     (initDisplay 320 240 1 0) (by decide)⟩

set_option maxRecDepth 100000 in
/-- C1 counterexample: pushing 65 distinct events into a fresh session
and popping 64 times does not yield the first 64 pushed events — the
64th pop already returns the none sentinel — and `win32_has_events` is
already false after 63 pops, not only after 64. -/
theorem c1_queue_overflow_counterexample :
    (popN 64 (pushList (initDisplay 1 1 1 0) (keyEvents 65))).1 ≠
      List.map Option.some ((keyEvents 65).take 64) ∧
    win32_has_events
      (popN 63 (pushList (initDisplay 1 1 1 0) (keyEvents 65))).2 = false := by
  decide

/-- C1 amended: the effective queue capacity is 63, not 64: pushing 64
events into a fresh session and popping 63 times yields exactly the
first 63 pushed events in order, any further pushed event is lost, and
`win32_has_events` is false after exactly 63 pops (still true after any
smaller number of pops). -/
theorem c1_queue_overflow_amended (w h f s : Nat) (evs : List Win32Event)
    (hlen : evs.length = 64) :
    (popN 63 (pushList (initDisplay w h f s) evs)).1 =
      List.map Option.some (evs.take 63) ∧
    win32_has_events (popN 63 (pushList (initDisplay w h f s) evs)).2 = false ∧
    (∀ k, k < 63 →
      win32_has_events (popN k (pushList (initDisplay w h f s) evs)).2 = true) := by
  have htlen : (evs.take 63).length = 63 := by
    rw [List.length_take]
    omega
  have hrep63 : queueRepr (pushList (initDisplay w h f s) (evs.take 63))
      (evs.take 63) := by
    have hr := pushList_repr (evs.take 63) (initDisplay w h f s) []
      (queueRepr_init w h f s) (by simp [htlen])
    simpa using hr
  obtain ⟨e64, he64⟩ : ∃ e, evs.drop 63 = [e] :=
    List.length_eq_one.mp (by rw [List.length_drop]; omega)
  have hpush_eq : pushList (initDisplay w h f s) evs =
      pushList (initDisplay w h f s) (evs.take 63) := by
    conv_lhs => rw [← List.take_append_drop 63 evs, he64]
    unfold pushList
    rw [List.foldl_append]
    simp only [List.foldl_cons, List.foldl_nil]
    exact queueRepr_push_full _ _ e64 hrep63 htlen
  rw [hpush_eq]
  have hpops := popN_repr (evs.take 63)
    (pushList (initDisplay w h f s) (evs.take 63)) [] (by simpa using hrep63)
  rw [htlen] at hpops
  refine ⟨hpops.1, ?_, ?_⟩
  · rw [queueRepr_hasEvents _ _ hpops.2]
    rfl
  · intro k hk
    have hsplit : (evs.take 63).take k ++ (evs.take 63).drop k = evs.take 63 :=
      List.take_append_drop k _
    have hlenk : ((evs.take 63).take k).length = k := by
      rw [List.length_take, htlen]
      omega
    have hpk := popN_repr ((evs.take 63).take k)
      (pushList (initDisplay w h f s) (evs.take 63)) ((evs.take 63).drop k)
      (by rw [hsplit]; exact hrep63)
    rw [hlenk] at hpk
    rw [queueRepr_hasEvents _ _ hpk.2]
    have hdlen : ((evs.take 63).drop k).length = 63 - k := by
      rw [List.length_drop, htlen]
    cases hdk : (evs.take 63).drop k with
    | nil =>
      rw [hdk] at hdlen
      simp at hdlen
      omega
    | cons a t => simp

/-- Witness for C1 amended at 64 concrete distinct key events. -/
theorem c1_queue_overflow_amended_witness :
    (keyEvents 64).length = 64 ∧
    ((popN 63 (pushList (initDisplay 1 1 1 0) (keyEvents 64))).1 =
      List.map Option.some ((keyEvents 64).take 63) ∧
    win32_has_events (popN 63 (pushList (initDisplay 1 1 1 0) (keyEvents 64))).2
      = false ∧
    (∀ k, k < 63 →
      win32_has_events (popN k (pushList (initDisplay 1 1 1 0) (keyEvents 64))).2
        = true)) :=
  ⟨by decide, c1_queue_overflow_amended 1 1 1 0 (keyEvents 64) (by decide)⟩

set_option maxRecDepth 100000 in
/-- C2 counterexample: N = 64 is within the claim's bound N ≤ 64, yet
pushing 64 distinct events and popping 64 times does not return the
pushed sequence — the 64th push was dropped and the 64th pop returns the
none sentinel. -/
theorem c2_queue_fifo_counterexample :
    (keyEvents 64).length ≤ 64 ∧
    (popN 64 (pushList (initDisplay 1 1 1 0) (keyEvents 64))).1 ≠
      List.map Option.some (keyEvents 64) := by
  decide

/-- C2 amended: FIFO holds for every sequence of N ≤ 63 pushes into a
fresh session followed by N pops: the popped events equal the pushed
sequence in order. -/
theorem c2_queue_fifo_amended (w h f s : Nat) (evs : List Win32Event)
    (hlen : evs.length ≤ 63) :
    (popN evs.length (pushList (initDisplay w h f s) evs)).1 =
      List.map Option.some evs := by
  have hrep : queueRepr (pushList (initDisplay w h f s) evs) evs := by
    have hr := pushList_repr evs (initDisplay w h f s) []
      (queueRepr_init w h f s) (by simpa using hlen)
    simpa using hr
  exact (popN_repr evs _ [] (by simpa using hrep)).1

/-- Witness for C2 amended at two concrete distinct key events. -/
theorem c2_queue_fifo_amended_witness :
    (keyEvents 2).length ≤ 63 ∧
    (popN (keyEvents 2).length (pushList (initDisplay 1 1 1 0) (keyEvents 2))).1 =
      List.map Option.some (keyEvents 2) :=
  ⟨by decide, c2_queue_fifo_amended 1 1 1 0 (keyEvents 2) (by decide)⟩
